import Mathlib

/-!
Shallow embedding of `src/tweet/models.py` (django-tweet).

The module ingests one parsed Twitter "status" JSON object and upserts two
records, a `Tweet` and a `User`, keyed by their external ids
(`tweet_id`, `user_id`).  Raw JSON dictionaries are modelled as structures
whose fields are `Option`-typed: `none` means the key is absent (so a
required `raw["k"]` access raises `KeyError`), while keys read with
`raw.get("k")` are modelled by a single `Option` since `.get` conflates an
absent key with a `null` value.  For required keys whose value may itself be
`null` (e.g. `url`, `protected`, `retweeted_status["id"]`) the field is
`Option (Option _)`: the outer layer is key presence, the inner layer is
`null`-ness of the value.

`email.utils.parsedate_tz` (the Python stdlib RFC-2822 parser underlying
`parsedate`) is an external collaborator; it is passed in as a function
`String → Option TimeTup` returning its 10 components (9 struct_time fields
plus the timezone offset, which `parsedate` drops).  The Django ORM store is
modelled as two lists of records; `get_or_create` plus the setattr loop
become `upsert` (find by key, replace-first or append).  The auto primary
key and the ORM-owned `updated_at` (`auto_now`) column are not part of the
mapped field set built by `create_or_update_from_json` and are not modelled.
-/

/-- Output of `email.utils.parsedate_tz`: the nine `struct_time` components
followed by the timezone offset parsed from the offset text (dropped by
`parsedate`, which returns only the first nine). -/
structure TimeTup where
  year : Int
  month : Int
  day : Int
  hour : Int
  minute : Int
  second : Int
  wday : Int
  yday : Int
  isdst : Int
  tzoffset : Option Int
deriving DecidableEq, Repr

/-- A Python `datetime.datetime` restricted to the fields the code builds:
`datetime(year, month, day, hour, minute, second, tzinfo=...)`.  `tzinfo` is
`none` for a naive datetime; timezones themselves are opaque (an `Int` id). -/
structure PyDateTime where
  year : Int
  month : Int
  day : Int
  hour : Int
  minute : Int
  second : Int
  tzinfo : Option Int
deriving DecidableEq, Repr

/-- Process-wide configuration fixed at module load: `settings.USE_TZ` and
`current_timezone = timezone.get_current_timezone()` (models.py lines 11-13). -/
structure Config where
  USE_TZ : Bool
  current_timezone : Int
deriving DecidableEq, Repr

/-- Exceptions `create_or_update_from_json` can raise: a `KeyError` on a
missing required dictionary key, or the `TypeError` raised by
`parsedate(string)[:6]` when `parsedate` returns `None`. -/
inductive Err where
  | keyError (k : String)
  | typeError
deriving DecidableEq, Repr

/-- models.py lines 16-20:
`parse_datetime` builds a `datetime` from the first six components of
`parsedate(string)` and attaches `current_timezone` exactly when
`settings.USE_TZ` is set; an unparsable string makes `parsedate` return
`None` and the subscript raise (modelled as `none`). -/
def parse_datetime (cfg : Config) (pdtz : String → Option TimeTup)
    (string : String) : Option PyDateTime :=
  match pdtz string with
  | none => none
  | some t =>
    if cfg.USE_TZ then
      some { year := t.year, month := t.month, day := t.day, hour := t.hour,
             minute := t.minute, second := t.second,
             tzinfo := some cfg.current_timezone }
    else
      some { year := t.year, month := t.month, day := t.day, hour := t.hour,
             minute := t.minute, second := t.second, tzinfo := none }

/-- The nested `retweeted_status` dictionary, of which only the key `"id"`
is read.  Outer `Option`: the key `"id"` is present; inner: its value may be
`null`. -/
structure RawRetweet where
  id : Option (Option Int)
deriving DecidableEq, Repr

/-- The nested `user` dictionary of a raw status.  Required keys
(read with `raw_user["k"]`) are `Option`-wrapped for presence; keys read
with `raw_user.get("k")` are a single `Option` (absent and `null`
conflated, as `.get` does). -/
structure RawUser where
  id : Option Int
  name : Option String
  screen_name : Option String
  location : Option String
  url : Option (Option String)
  description : Option String
  protected_ : Option (Option Bool)
  verified : Option (Option Bool)
  favourites_count : Option Int
  followers_count : Option Int
  friends_count : Option Int
  listed_count : Option Int
  statuses_count : Option Int
  created_at : Option String
  profile_banner_url : Option String
  profile_image_url_https : Option String
  default_profile : Option Bool
  default_profile_image : Option Bool
  entities : Option String
deriving DecidableEq, Repr

/-- A raw parsed status object, the `raw` argument of
`create_or_update_from_json`. -/
structure RawStatus where
  user : Option RawUser
  id : Option Int
  text : Option String
  truncated : Option Bool
  created_at : Option String
  filter_level : Option String
  reply_count : Option Int
  favorite_count : Option Int
  retweet_count : Option Int
  in_reply_to_status_id : Option Int
  retweeted_status : Option RawRetweet
  entities : Option String
deriving DecidableEq, Repr

/-- The mapped fields of a stored `Tweet` row (models.py lines 67-108),
i.e. exactly the keys of `tweet_defaults`. -/
structure TweetRec where
  tweet_id : Int
  text : String
  truncated : Bool
  user_id : Int
  created_at : PyDateTime
  filter_level : Option String
  reply_count : Option Int
  favorite_count : Option Int
  retweet_count : Option Int
  in_reply_to_status_id : Option Int
  retweeted_status_id : Option Int
  entities : Option String
deriving DecidableEq, Repr

/-- models.py lines 110-112: `is_retweet` is `retweeted_status_id is not None`. -/
def TweetRec.is_retweet (t : TweetRec) : Bool :=
  t.retweeted_status_id.isSome

/-- The mapped fields of a stored `User` row (models.py lines 23-61),
i.e. exactly the keys of `user_defaults`. -/
structure UserRec where
  user_id : Int
  name : String
  screen_name : String
  location : String
  url : Option String
  description : String
  protected_ : Option Bool
  verified : Option Bool
  followers_count : Option Int
  friends_count : Option Int
  listed_count : Option Int
  favourites_count : Option Int
  statuses_count : Option Int
  created_at : PyDateTime
  profile_banner_url : Option String
  profile_image_url_https : Option String
  default_profile : Option Bool
  default_profile_image : Option Bool
  entities : Option String
deriving DecidableEq, Repr

/-- The relational store: the two tables, as lists of rows. -/
structure Store where
  tweets : List TweetRec
  users : List UserRec
deriving DecidableEq, Repr

/-- Python truthiness of the optional integer `retweeted_status["id"]`:
`None` and `0` are falsy, every other int is truthy (models.py line 157). -/
def pyTruthy : Option Int → Bool
  | none => false
  | some n => n != 0

/-- models.py lines 152-154: `raw.get("retweeted_status")` defaulted to
`{"id": None}` when absent. -/
def rtDefault : Option RawRetweet → RawRetweet
  | none => { id := some none }
  | some rs => rs

/-- models.py lines 156-158: `save_rts is False and retweeted_status["id"]`.
The `and` short-circuits, so the `"id"` key is only read when `save_rts` is
`False`; result `true` means the retweet is skipped. -/
def skipCheck (save_rts : Bool) (retweeted_status : RawRetweet) :
    Except Err Bool :=
  if save_rts = false then
    match retweeted_status.id with
    | none => .error (.keyError "id")
    | some v => .ok (pyTruthy v)
  else
    .ok false

/-- models.py lines 160-180: a present-but-negative count is replaced by
`None`; everything else passes through. -/
def sanitize (v : Option Int) : Option Int :=
  match v with
  | none => none
  | some n => if n < 0 then none else some n

/-- models.py lines 182-202: `tweet_defaults`, with the required-key reads
in source evaluation order (`raw["id"]`, `raw["text"]`, `raw["truncated"]`,
`raw_user["id"]`, `raw["created_at"]` then `parse_datetime`, and
`retweeted_status["id"]`). -/
def buildTweet (cfg : Config) (pdtz : String → Option TimeTup)
    (raw : RawStatus) (raw_user : RawUser) (retweeted_status : RawRetweet) :
    Except Err TweetRec :=
  match raw.id with
  | none => .error (.keyError "id")
  | some tid =>
  match raw.text with
  | none => .error (.keyError "text")
  | some text =>
  match raw.truncated with
  | none => .error (.keyError "truncated")
  | some trunc =>
  match raw_user.id with
  | none => .error (.keyError "id")
  | some uid =>
  match raw.created_at with
  | none => .error (.keyError "created_at")
  | some ca_str =>
  match parse_datetime cfg pdtz ca_str with
  | none => .error .typeError
  | some ca =>
  match retweeted_status.id with
  | none => .error (.keyError "id")
  | some rsid =>
    .ok { tweet_id := tid
          text := text
          truncated := trunc
          user_id := uid
          created_at := ca
          filter_level := raw.filter_level
          reply_count := sanitize raw.reply_count
          favorite_count := sanitize raw.favorite_count
          retweet_count := sanitize raw.retweet_count
          in_reply_to_status_id := raw.in_reply_to_status_id
          retweeted_status_id := rsid
          entities := raw.entities }

/-- models.py lines 204-229: `user_defaults`, required-key reads in source
evaluation order. -/
def buildUser (cfg : Config) (pdtz : String → Option TimeTup)
    (raw_user : RawUser) : Except Err UserRec :=
  match raw_user.id with
  | none => .error (.keyError "id")
  | some uid =>
  match raw_user.name with
  | none => .error (.keyError "name")
  | some name =>
  match raw_user.screen_name with
  | none => .error (.keyError "screen_name")
  | some sname =>
  match raw_user.location with
  | none => .error (.keyError "location")
  | some loc =>
  match raw_user.url with
  | none => .error (.keyError "url")
  | some url =>
  match raw_user.description with
  | none => .error (.keyError "description")
  | some desc =>
  match raw_user.protected_ with
  | none => .error (.keyError "protected")
  | some prot =>
  match raw_user.verified with
  | none => .error (.keyError "verified")
  | some ver =>
  match raw_user.created_at with
  | none => .error (.keyError "created_at")
  | some ca_str =>
  match parse_datetime cfg pdtz ca_str with
  | none => .error .typeError
  | some ca =>
    .ok { user_id := uid
          name := name
          screen_name := sname
          location := loc
          url := url
          description := desc
          protected_ := prot
          verified := ver
          followers_count := sanitize raw_user.followers_count
          friends_count := sanitize raw_user.friends_count
          listed_count := sanitize raw_user.listed_count
          favourites_count := sanitize raw_user.favourites_count
          statuses_count := sanitize raw_user.statuses_count
          created_at := ca
          profile_banner_url := raw_user.profile_banner_url
          profile_image_url_https := raw_user.profile_image_url_https
          default_profile := raw_user.default_profile
          default_profile_image := raw_user.default_profile_image
          entities := raw_user.entities }

/-- The pure (read-only) prefix of `create_or_update_from_json`
(models.py lines 151-229): read `raw["user"]`, run the retweet skip check,
then build both field-set snapshots.  `.ok none` is the filtered-skip
result; every raw-input read happens here, before any write. -/
def normalizeStatus (cfg : Config) (pdtz : String → Option TimeTup)
    (raw : RawStatus) (save_rts : Bool) :
    Except Err (Option (TweetRec × UserRec)) :=
  match raw.user with
  | none => .error (.keyError "user")
  | some raw_user =>
    match skipCheck save_rts (rtDefault raw.retweeted_status) with
    | .error e => .error e
    | .ok true => .ok none
    | .ok false =>
      match buildTweet cfg pdtz raw raw_user (rtDefault raw.retweeted_status) with
      | .error e => .error e
      | .ok td =>
        match buildUser cfg pdtz raw_user with
        | .error e => .error e
        | .ok ud => .ok (some (td, ud))

/-- Replace the first element satisfying `p` by `d` (the effect of the
`setattr` loop on the single object returned by `get_or_create`). -/
def replaceFirst (p : α → Bool) (d : α) : List α → List α
  | [] => []
  | x :: xs => if p x then d :: xs else x :: replaceFirst p d xs

/-- models.py lines 231-238 / 240-247: `get_or_create` keyed by `p`,
followed (in the found branch) by overwriting every mapped field with the
defaults `d` and saving.  In both branches the resulting row equals `d`. -/
def upsert (p : α → Bool) (d : α) (l : List α) : List α :=
  match l.find? p with
  | some _ => replaceFirst p d l
  | none => l ++ [d]

/-- models.py lines 146-249: the full ingestion function.  Returns the
updated store together with the Python result: `.error e` for a raised
exception (store untouched), `.ok none` for the filtered retweet skip,
`.ok (some (tweet, user))` for the returned pair. -/
def create_or_update_from_json (cfg : Config) (pdtz : String → Option TimeTup)
    (raw : RawStatus) (save_rts : Bool) (st : Store) :
    Store × Except Err (Option (TweetRec × UserRec)) :=
  match normalizeStatus cfg pdtz raw save_rts with
  | .error e => (st, .error e)
  | .ok none => (st, .ok none)
  | .ok (some (td, ud)) =>
    ({ tweets := upsert (fun t => t.tweet_id == td.tweet_id) td st.tweets,
       users := upsert (fun u => u.user_id == ud.user_id) ud st.users },
     .ok (some (td, ud)))

/-- Strict lexicographic order on integer lists, used to compare datetime
component vectors the way the database compares `DateTimeField` values. -/
def lexLt : List Int → List Int → Bool
  | _, [] => false
  | [], _ :: _ => true
  | a :: as, b :: bs => decide (a < b) || (decide (a = b) && lexLt as bs)

/-- The comparison key of a stored datetime: its six components in order.
All stored datetimes share the single process-wide `tzinfo`, so the column
order is the lexicographic order on these components. -/
def dtKey (d : PyDateTime) : List Int :=
  [d.year, d.month, d.day, d.hour, d.minute, d.second]

/-- Strict `<` on stored datetimes (the database order on the
`created_at` column). -/
def dtLtb (a b : PyDateTime) : Bool := lexLt (dtKey a) (dtKey b)

/-- Non-strict `≤` on stored datetimes. -/
def dtLeb (a b : PyDateTime) : Bool := !dtLtb b a

/-- models.py lines 119-124: `get_created_in_range(start, end)` filters on
`created_at__gte=start, created_at__lt=end`. -/
def get_created_in_range (st : Store) (start end_ : PyDateTime) :
    List TweetRec :=
  st.tweets.filter fun t => dtLeb start t.created_at && dtLtb t.created_at end_

/-- The database `Min` aggregate over a datetime column. -/
def aggMin : List PyDateTime → Option PyDateTime
  | [] => none
  | d :: ds =>
    match aggMin ds with
    | none => some d
    | some m => if dtLtb m d then some m else some d

/-- The database `Max` aggregate over a datetime column. -/
def aggMax : List PyDateTime → Option PyDateTime
  | [] => none
  | d :: ds =>
    match aggMax ds with
    | none => some d
    | some m => if dtLtb d m then some m else some d

/-- models.py lines 126-132: `aggregate(Min("created_at"))`, `None` on an
empty table. -/
def get_earliest_created_at (st : Store) : Option PyDateTime :=
  aggMin (st.tweets.map (fun t => t.created_at))

/-- models.py lines 134-140: `aggregate(Max("created_at"))`, `None` on an
empty table. -/
def get_latest_created_at (st : Store) : Option PyDateTime :=
  aggMax (st.tweets.map (fun t => t.created_at))

/-- A concrete `parsedate_tz` output: "Wed Oct 10 20:19:24 +0000 2018". -/
def tupC : TimeTup :=
  { year := 2018, month := 10, day := 10, hour := 20, minute := 19,
    second := 24, wday := 2, yday := 283, isdst := -1, tzoffset := some 0 }

/-- A concrete parser that accepts every string as `tupC`. -/
def pdC : String → Option TimeTup := fun _ => some tupC

/-- A concrete configuration: timezone-aware mode, UTC. -/
def cfgC : Config := { USE_TZ := true, current_timezone := 0 }

/-- The datetime `parse_datetime` produces from `tupC` under `cfgC`. -/
def dtC : PyDateTime :=
  { year := 2018, month := 10, day := 10, hour := 20, minute := 19,
    second := 24, tzinfo := some 0 }

/-- A concrete raw author object with every required key present. -/
def ruC : RawUser :=
  { id := some 7, name := some "A", screen_name := some "a",
    location := some "", url := some none, description := some "",
    protected_ := some (some false), verified := some (some false),
    favourites_count := none, followers_count := some 3,
    friends_count := none, listed_count := none, statuses_count := none,
    created_at := some "Wed Oct 10 20:19:24 +0000 2018",
    profile_banner_url := none, profile_image_url_https := none,
    default_profile := none, default_profile_image := none,
    entities := none }

/-- A concrete valid original (non-retweet) status, with a negative
`reply_count` (the spec's concrete scenario). -/
def rawC : RawStatus :=
  { user := some ruC, id := some 100, text := some "hi",
    truncated := some false,
    created_at := some "Wed Oct 10 20:19:24 +0000 2018",
    filter_level := none, reply_count := some (-1),
    favorite_count := some 2, retweet_count := none,
    in_reply_to_status_id := none, retweeted_status := none,
    entities := none }

/-- The empty store. -/
def store0 : Store := { tweets := [], users := [] }

/-- The tweet row produced by ingesting `rawC`. -/
def tdC : TweetRec :=
  { tweet_id := 100, text := "hi", truncated := false, user_id := 7,
    created_at := dtC, filter_level := none, reply_count := none,
    favorite_count := some 2, retweet_count := none,
    in_reply_to_status_id := none, retweeted_status_id := none,
    entities := none }

/-- The author row produced by ingesting `rawC`. -/
def udC : UserRec :=
  { user_id := 7, name := "A", screen_name := "a", location := "",
    url := none, description := "", protected_ := some false,
    verified := some false, followers_count := some 3,
    friends_count := none, listed_count := none, favourites_count := none,
    statuses_count := none, created_at := dtC, profile_banner_url := none,
    profile_image_url_https := none, default_profile := none,
    default_profile_image := none, entities := none }

/-- The store after ingesting `rawC` into the empty store. -/
def st1C : Store := { tweets := [tdC], users := [udC] }

/-- `rawC` turned into a retweet whose nested id is `0`: non-null but
falsy in Python. -/
def rawRt0 : RawStatus :=
  { rawC with retweeted_status := some { id := some (some 0) } }

/-- `rawC` turned into a retweet with the truthy nested id `55`. -/
def rawRt55 : RawStatus :=
  { rawC with retweeted_status := some { id := some (some 55) } }

/-- A retweet (nested id `55`) whose required key `text` is absent. -/
def rawRt55NoText : RawStatus :=
  { rawRt55 with text := none }

/-- `rawC` with the required key `text` absent. -/
def rawNoText : RawStatus := { rawC with text := none }

/-- `rawC` with the required key `user` absent. -/
def rawNoUser : RawStatus := { rawC with user := none }

/-- Appending the new row to a table with no key match makes it the found
row of the next lookup. -/
theorem find_append_of_none {α} {p : α → Bool} {l : List α} {d : α}
    (h : l.find? p = none) (hd : p d = true) :
    (l ++ [d]).find? p = some d := by
  induction l with
  | nil => simp [List.find?, hd]
  | cons x xs ih =>
    rw [List.find?_eq_none] at h
    have hx : p x = false := by
      have := h x (by simp)
      revert this; cases p x <;> simp
    rw [List.cons_append, List.find?_cons_of_neg _ (by simp [hx])]
    exact ih (List.find?_eq_none.mpr fun y hy => h y (by simp [hy]))

/-- Replacing the first key match in a freshly appended table is a no-op
when the new row is the appended one. -/
theorem replaceFirst_append_of_none {α} {p : α → Bool} {l : List α} {d : α}
    (h : l.find? p = none) :
    replaceFirst p d (l ++ [d]) = l ++ [d] := by
  induction l with
  | nil =>
    cases hpd : p d <;> simp [replaceFirst, hpd]
  | cons x xs ih =>
    rw [List.find?_eq_none] at h
    have hx : p x = false := by
      have := h x (by simp)
      revert this; cases p x <;> simp
    have hxs : xs.find? p = none :=
      List.find?_eq_none.mpr fun y hy => h y (by simp [hy])
    simp [replaceFirst, hx, ih hxs]

/-- After replacing the first key match by the new row, the next lookup
finds exactly the new row. -/
theorem find_replaceFirst_of_some {α} {p : α → Bool} {l : List α} {d x : α}
    (h : l.find? p = some x) (hd : p d = true) :
    (replaceFirst p d l).find? p = some d := by
  induction l generalizing x with
  | nil => simp [List.find?] at h
  | cons y ys ih =>
    cases hy : p y with
    | true =>
      simp [replaceFirst, hy, List.find?_cons_of_pos _ hd]
    | false =>
      rw [List.find?_cons_of_neg _ (by simp [hy])] at h
      simp only [replaceFirst, hy, if_false, Bool.false_eq_true]
      rw [List.find?_cons_of_neg _ (by simp [hy])]
      exact ih h

/-- Replacing the first key match twice is the same as replacing it once. -/
theorem replaceFirst_replaceFirst {α} {p : α → Bool} {l : List α} {d : α}
    (hd : p d = true) :
    replaceFirst p d (replaceFirst p d l) = replaceFirst p d l := by
  induction l with
  | nil => rfl
  | cons x xs ih =>
    cases hx : p x with
    | true => simp [replaceFirst, hx, hd]
    | false => simp [replaceFirst, hx, ih]

/-- Upserting the same row twice leaves the table exactly as after the
first upsert. -/
theorem upsert_idem {α} {p : α → Bool} {l : List α} {d : α}
    (hd : p d = true) :
    upsert p d (upsert p d l) = upsert p d l := by
  cases h : l.find? p with
  | none =>
    have h1 : upsert p d l = l ++ [d] := by simp [upsert, h]
    rw [h1]
    simp [upsert, find_append_of_none h hd, replaceFirst_append_of_none h]
  | some x =>
    have h1 : upsert p d l = replaceFirst p d l := by simp [upsert, h]
    rw [h1]
    simp [upsert, find_replaceFirst_of_some h hd, replaceFirst_replaceFirst hd]

/-- Lexicographic strict order is irreflexive. -/
theorem lexLt_irrefl (l : List Int) : lexLt l l = false := by
  induction l with
  | nil => rfl
  | cons a as ih => simp [lexLt, ih]

/-- Negated lexicographic order is transitive. -/
theorem lexLt_neg_trans {a b c : List Int}
    (h1 : lexLt a b = false) (h2 : lexLt b c = false) :
    lexLt a c = false := by
  induction a generalizing b c with
  | nil =>
    cases b with
    | nil => exact h2
    | cons y ys => simp [lexLt] at h1
  | cons x xs ih =>
    cases c with
    | nil => rfl
    | cons z zs =>
      cases b with
      | nil => simp [lexLt] at h2
      | cons y ys =>
        simp only [lexLt, Bool.or_eq_false_iff, Bool.and_eq_false_iff,
          decide_eq_false_iff_not] at h1 h2 ⊢
        obtain ⟨h1a, h1b⟩ := h1
        obtain ⟨h2a, h2b⟩ := h2
        refine ⟨by omega, ?_⟩
        by_cases hxz : x = z
        · right
          have hxy : x = y := by omega
          have hyz : y = z := by omega
          have hxy' : lexLt xs ys = false := by
            rcases h1b with h | h
            · exact absurd hxy h
            · exact h
          have hyz' : lexLt ys zs = false := by
            rcases h2b with h | h
            · exact absurd hyz h
            · exact h
          exact ih hxy' hyz'
        · left; exact hxz

/-- Lexicographic strict order is asymmetric. -/
theorem lexLt_asymm {a b : List Int} (h : lexLt a b = true) :
    lexLt b a = false := by
  induction a generalizing b with
  | nil =>
    cases b with
    | nil => simp [lexLt] at h
    | cons y ys => rfl
  | cons x xs ih =>
    cases b with
    | nil => simp [lexLt] at h
    | cons y ys =>
      simp only [lexLt, Bool.or_eq_true, Bool.and_eq_true,
        decide_eq_true_eq] at h
      simp only [lexLt, Bool.or_eq_false_iff, Bool.and_eq_false_iff,
        decide_eq_false_iff_not]
      rcases h with h | ⟨rfl, h2⟩
      · exact ⟨by omega, Or.inl (by omega)⟩
      · exact ⟨by omega, Or.inr (ih h2)⟩

/-- The datetime order is reflexive for `≤`. -/
theorem dtLeb_refl (a : PyDateTime) : dtLeb a a = true := by
  simp [dtLeb, dtLtb, lexLt_irrefl]

/-- The strict datetime order is irreflexive. -/
theorem dtLtb_irrefl (a : PyDateTime) : dtLtb a a = false :=
  lexLt_irrefl _

/-- The datetime `≤` is transitive. -/
theorem dtLeb_trans {a b c : PyDateTime}
    (h1 : dtLeb a b = true) (h2 : dtLeb b c = true) : dtLeb a c = true := by
  simp only [dtLeb, Bool.not_eq_true'] at h1 h2 ⊢
  exact lexLt_neg_trans h2 h1

/-- Strict datetime order implies non-strict. -/
theorem dtLtb_le {a b : PyDateTime} (h : dtLtb a b = true) :
    dtLeb a b = true := by
  simp only [dtLeb, Bool.not_eq_true']
  exact lexLt_asymm h

/-- The `Min` aggregate is `None` exactly on an empty column. -/
theorem aggMin_eq_none {l : List PyDateTime} : aggMin l = none ↔ l = [] := by
  cases l with
  | nil => simp [aggMin]
  | cons d ds =>
    rw [aggMin]
    cases h : aggMin ds with
    | none => simp
    | some m =>
      dsimp only
      split <;> simp

/-- The `Max` aggregate is `None` exactly on an empty column. -/
theorem aggMax_eq_none {l : List PyDateTime} : aggMax l = none ↔ l = [] := by
  cases l with
  | nil => simp [aggMax]
  | cons d ds =>
    rw [aggMax]
    cases h : aggMax ds with
    | none => simp
    | some m =>
      dsimp only
      split <;> simp

/-- The `Min` aggregate returns an attained lower bound. -/
theorem aggMin_spec {l : List PyDateTime} {m : PyDateTime}
    (h : aggMin l = some m) :
    m ∈ l ∧ ∀ x ∈ l, dtLeb m x = true := by
  induction l generalizing m with
  | nil => simp [aggMin] at h
  | cons d ds ih =>
    rw [aggMin] at h
    cases hds : aggMin ds with
    | none =>
      rw [hds] at h
      dsimp only at h
      have hnil : ds = [] := aggMin_eq_none.mp hds
      subst hnil
      obtain rfl : d = m := Option.some.inj h
      exact ⟨by simp, by intro x hx; simp at hx; subst hx; exact dtLeb_refl _⟩
    | some m0 =>
      rw [hds] at h
      dsimp only at h
      obtain ⟨hm0, hbnd⟩ := ih hds
      cases hlt : dtLtb m0 d with
      | true =>
        rw [if_pos hlt] at h
        obtain rfl : m0 = m := Option.some.inj h
        refine ⟨List.mem_cons_of_mem _ hm0, ?_⟩
        intro x hx
        rcases List.mem_cons.mp hx with rfl | hx
        · exact dtLtb_le hlt
        · exact hbnd x hx
      | false =>
        rw [if_neg (by simp [hlt])] at h
        obtain rfl : d = m := Option.some.inj h
        have hdm0 : dtLeb d m0 = true := by
          simp only [dtLeb, Bool.not_eq_true']; exact hlt
        refine ⟨by simp, ?_⟩
        intro x hx
        rcases List.mem_cons.mp hx with rfl | hx
        · exact dtLeb_refl _
        · exact dtLeb_trans hdm0 (hbnd x hx)

/-- The `Max` aggregate returns an attained upper bound. -/
theorem aggMax_spec {l : List PyDateTime} {M : PyDateTime}
    (h : aggMax l = some M) :
    M ∈ l ∧ ∀ x ∈ l, dtLeb x M = true := by
  induction l generalizing M with
  | nil => simp [aggMax] at h
  | cons d ds ih =>
    rw [aggMax] at h
    cases hds : aggMax ds with
    | none =>
      rw [hds] at h
      dsimp only at h
      have hnil : ds = [] := aggMax_eq_none.mp hds
      subst hnil
      obtain rfl : d = M := Option.some.inj h
      exact ⟨by simp, by intro x hx; simp at hx; subst hx; exact dtLeb_refl _⟩
    | some m0 =>
      rw [hds] at h
      dsimp only at h
      obtain ⟨hm0, hbnd⟩ := ih hds
      cases hlt : dtLtb d m0 with
      | true =>
        rw [if_pos hlt] at h
        obtain rfl : m0 = M := Option.some.inj h
        refine ⟨List.mem_cons_of_mem _ hm0, ?_⟩
        intro x hx
        rcases List.mem_cons.mp hx with rfl | hx
        · exact dtLtb_le hlt
        · exact hbnd x hx
      | false =>
        rw [if_neg (by simp [hlt])] at h
        obtain rfl : d = M := Option.some.inj h
        have hm0d : dtLeb m0 d = true := by
          simp only [dtLeb, Bool.not_eq_true']; exact hlt
        refine ⟨by simp, ?_⟩
        intro x hx
        rcases List.mem_cons.mp hx with rfl | hx
        · exact dtLeb_refl _
        · exact dtLeb_trans (hbnd x hx) hm0d

/-- Success inversion for the tweet snapshot: every required key was
present and each stored field comes from the corresponding raw field. -/
theorem buildTweet_ok {cfg : Config} {pdtz : String → Option TimeTup}
    {raw : RawStatus} {ru : RawUser} {rs : RawRetweet} {td : TweetRec}
    (h : buildTweet cfg pdtz raw ru rs = .ok td) :
    raw.id = some td.tweet_id ∧ raw.text = some td.text ∧
    raw.truncated = some td.truncated ∧ ru.id = some td.user_id ∧
    (∃ s, raw.created_at = some s ∧
      parse_datetime cfg pdtz s = some td.created_at) ∧
    td.filter_level = raw.filter_level ∧
    td.reply_count = sanitize raw.reply_count ∧
    td.favorite_count = sanitize raw.favorite_count ∧
    td.retweet_count = sanitize raw.retweet_count ∧
    td.in_reply_to_status_id = raw.in_reply_to_status_id ∧
    rs.id = some td.retweeted_status_id ∧
    td.entities = raw.entities := by
  unfold buildTweet at h
  repeat' split at h
  all_goals first
  | (injection h with h; subst h; simp_all)
  | simp_all

/-- Success inversion for the author snapshot. -/
theorem buildUser_ok {cfg : Config} {pdtz : String → Option TimeTup}
    {ru : RawUser} {ud : UserRec}
    (h : buildUser cfg pdtz ru = .ok ud) :
    ru.id = some ud.user_id ∧ ru.name = some ud.name ∧
    ru.screen_name = some ud.screen_name ∧ ru.location = some ud.location ∧
    ru.url = some ud.url ∧ ru.description = some ud.description ∧
    ru.protected_ = some ud.protected_ ∧ ru.verified = some ud.verified ∧
    (∃ s, ru.created_at = some s ∧
      parse_datetime cfg pdtz s = some ud.created_at) ∧
    ud.followers_count = sanitize ru.followers_count ∧
    ud.friends_count = sanitize ru.friends_count ∧
    ud.listed_count = sanitize ru.listed_count ∧
    ud.favourites_count = sanitize ru.favourites_count ∧
    ud.statuses_count = sanitize ru.statuses_count ∧
    ud.profile_banner_url = ru.profile_banner_url ∧
    ud.profile_image_url_https = ru.profile_image_url_https ∧
    ud.default_profile = ru.default_profile ∧
    ud.default_profile_image = ru.default_profile_image ∧
    ud.entities = ru.entities := by
  unfold buildUser at h
  repeat' split at h
  all_goals first
  | (injection h with h; subst h; simp_all)
  | simp_all

/-- A returned pair comes from a present author object and successful
snapshot builds. -/
theorem normalizeStatus_ok_some {cfg : Config}
    {pdtz : String → Option TimeTup} {raw : RawStatus} {b : Bool}
    {td : TweetRec} {ud : UserRec}
    (h : normalizeStatus cfg pdtz raw b = .ok (some (td, ud))) :
    ∃ ru, raw.user = some ru ∧
      buildTweet cfg pdtz raw ru (rtDefault raw.retweeted_status) = .ok td ∧
      buildUser cfg pdtz ru = .ok ud := by
  unfold normalizeStatus at h
  repeat' split at h
  all_goals simp_all

/-- The nothing-result arises only from the retweet skip check firing,
which can happen only after the author object was read successfully. -/
theorem normalizeStatus_ok_none {cfg : Config}
    {pdtz : String → Option TimeTup} {raw : RawStatus} {b : Bool}
    (h : normalizeStatus cfg pdtz raw b = .ok none) :
    (∃ ru, raw.user = some ru) ∧
    skipCheck b (rtDefault raw.retweeted_status) = .ok true := by
  unfold normalizeStatus at h
  repeat' split at h
  all_goals simp_all

/-- A returned pair from the full ingestion determines the normalization
result. -/
theorem create_ok_some {cfg : Config} {pdtz : String → Option TimeTup}
    {raw : RawStatus} {b : Bool} {st st' : Store} {t : TweetRec}
    {u : UserRec}
    (h : create_or_update_from_json cfg pdtz raw b st =
      (st', .ok (some (t, u)))) :
    normalizeStatus cfg pdtz raw b = .ok (some (t, u)) := by
  unfold create_or_update_from_json at h
  repeat' split at h
  all_goals simp_all

/-- C1 (amended): for a valid status whose nested retweeted-status id is
present, non-null and non-zero (Python-truthy), ingesting with
`save_rts = false` returns the defined nothing-result and leaves the store
untouched, creating and modifying no tweet and no user row. -/
theorem c1_retweet_skip (cfg : Config) (pdtz : String → Option TimeTup)
    (raw : RawStatus) (st : Store) (ru : RawUser) (rs : RawRetweet) (n : Int)
    (hu : raw.user = some ru) (hrs : raw.retweeted_status = some rs)
    (hid : rs.id = some (some n)) (hn : n ≠ 0) :
    create_or_update_from_json cfg pdtz raw false st = (st, .ok none) := by
  have hskip : skipCheck false (rtDefault raw.retweeted_status) = .ok true := by
    rw [hrs]
    simp [skipCheck, rtDefault, hid, pyTruthy, hn]
  simp [create_or_update_from_json, normalizeStatus, hu, hskip]

/-- C1 witness: a concrete truthy retweet is skipped without any write. -/
theorem c1_retweet_skip_witness :
    rawRt55.user = some ruC ∧
    rawRt55.retweeted_status = some { id := some (some 55) } ∧
    ({ id := some (some 55) } : RawRetweet).id = some (some 55) ∧
    (55 : Int) ≠ 0 ∧
    create_or_update_from_json cfgC pdC rawRt55 false store0 =
      (store0, .ok none) :=
  ⟨rfl, rfl, rfl, by decide,
    c1_retweet_skip cfgC pdC rawRt55 store0 ruC _ 55 rfl rfl rfl (by decide)⟩

/-- The tweet row produced by ingesting `rawRt0`. -/
def tdRt0 : TweetRec := { tdC with retweeted_status_id := some 0 }

/-- C1 counterexample: a status whose retweeted-status id is non-null but
`0` (falsy in Python) is NOT skipped under `save_rts = false`: ingest
returns a pair and writes both rows, refuting the claim for this valid
status with a non-null retweeted-status identifier. -/
theorem c1_counterexample :
    rawRt0.retweeted_status = some { id := some (some 0) } ∧
    (create_or_update_from_json cfgC pdC rawRt0 false store0).2 ≠ .ok none ∧
    (create_or_update_from_json cfgC pdC rawRt0 false store0).1 ≠ store0 := by
  refine ⟨rfl, ?_, ?_⟩
  · intro hc
    rw [show (create_or_update_from_json cfgC pdC rawRt0 false store0).2 =
      Except.ok (some (tdRt0, udC)) from rfl] at hc
    simp at hc
  · intro hc
    rw [show (create_or_update_from_json cfgC pdC rawRt0 false store0).1 =
      { tweets := [tdRt0], users := [udC] } from rfl] at hc
    simp [store0] at hc

/-- C2: re-ingesting the identical status object is idempotent: whenever a
first call returned a pair and the store `st₁`, running the very same call
on `st₁` returns the same pair and leaves `st₁` exactly as it is — the
second call finds the rows by their external ids and overwrites every
mapped field instead of appending duplicates. -/
theorem c2_ingest_idempotent (cfg : Config) (pdtz : String → Option TimeTup)
    (raw : RawStatus) (save_rts : Bool) (st st₁ : Store)
    (p : TweetRec × UserRec)
    (h : create_or_update_from_json cfg pdtz raw save_rts st =
      (st₁, .ok (some p))) :
    create_or_update_from_json cfg pdtz raw save_rts st₁ =
      (st₁, .ok (some p)) := by
  obtain ⟨td, ud⟩ := p
  have hn : normalizeStatus cfg pdtz raw save_rts = .ok (some (td, ud)) :=
    create_ok_some h
  unfold create_or_update_from_json at h ⊢
  rw [hn] at h ⊢
  dsimp only at h ⊢
  simp only [Prod.mk.injEq] at h
  obtain ⟨hst, -⟩ := h
  subst hst
  dsimp only
  rw [upsert_idem (by simp), upsert_idem (by simp)]

/-- C2 witness: the concrete status `rawC` ingested a second time on top of
its own result changes nothing. -/
theorem c2_ingest_idempotent_witness :
    create_or_update_from_json cfgC pdC rawC true store0 =
      (st1C, .ok (some (tdC, udC))) ∧
    create_or_update_from_json cfgC pdC rawC true st1C =
      (st1C, .ok (some (tdC, udC))) :=
  ⟨rfl, c2_ingest_idempotent cfgC pdC rawC true store0 st1C (tdC, udC) rfl⟩

/-- C7: `parse_datetime` builds the stored value from exactly the first six
parsed components of the RFC-2822 parse (year, month, day, hour, minute,
second) — the weekday/yearday/dst placeholders and the timezone-offset
component parsed from the string are discarded — and attaches the single
process-wide configured timezone exactly when the timezone-aware toggle is
on, a naive value otherwise. -/
theorem c7_parse_datetime_components (cfg : Config)
    (pdtz : String → Option TimeTup) (s : String) (t : TimeTup)
    (h : pdtz s = some t) :
    parse_datetime cfg pdtz s =
      some { year := t.year, month := t.month, day := t.day, hour := t.hour,
             minute := t.minute, second := t.second,
             tzinfo := if cfg.USE_TZ then some cfg.current_timezone
                       else none } := by
  unfold parse_datetime
  rw [h]
  dsimp only
  cases hz : cfg.USE_TZ <;> simp [hz]

/-- C7 witness: the concrete parse under aware mode. -/
theorem c7_parse_datetime_components_witness :
    pdC "Wed Oct 10 20:19:24 +0000 2018" = some tupC ∧
    parse_datetime cfgC pdC "Wed Oct 10 20:19:24 +0000 2018" =
      some { year := 2018, month := 10, day := 10, hour := 20, minute := 19,
             second := 24,
             tzinfo := if cfgC.USE_TZ then some cfgC.current_timezone
                       else none } :=
  ⟨rfl, c7_parse_datetime_components cfgC pdC _ tupC rfl⟩

/-- C9: every required-key access and both timestamp parses happen before
the first persistence write, so a raising ingest leaves the store
completely unchanged — no partial state with only one of the two rows
written can arise from a malformed input. -/
theorem c9_error_leaves_store (cfg : Config)
    (pdtz : String → Option TimeTup) (raw : RawStatus) (save_rts : Bool)
    (st : Store) (e : Err)
    (h : (create_or_update_from_json cfg pdtz raw save_rts st).2 =
      .error e) :
    (create_or_update_from_json cfg pdtz raw save_rts st).1 = st := by
  unfold create_or_update_from_json at h ⊢
  cases hn : normalizeStatus cfg pdtz raw save_rts with
  | error e' => rfl
  | ok o =>
    cases o with
    | none => rfl
    | some q =>
      obtain ⟨td, ud⟩ := q
      rw [hn] at h
      simp at h

/-- C9 witness: a status missing its author object raises and leaves the
store empty. -/
theorem c9_error_leaves_store_witness :
    (create_or_update_from_json cfgC pdC rawNoUser true store0).2 =
      .error (.keyError "user") ∧
    (create_or_update_from_json cfgC pdC rawNoUser true store0).1 =
      store0 :=
  ⟨rfl, c9_error_leaves_store cfgC pdC rawNoUser true store0
    (.keyError "user") rfl⟩

/-- The spec's sanitization contract for one engagement counter: a present
negative raw value is stored as absent, a present non-negative value is
stored unchanged, an absent raw value stays absent. -/
def countOk (rv sv : Option Int) : Prop :=
  (rv = none → sv = none) ∧
  ∀ n, rv = some n → (n < 0 → sv = none) ∧ (0 ≤ n → sv = some n)

/-- The source's negative-count replacement satisfies the contract. -/
theorem sanitize_countOk (v : Option Int) : countOk v (sanitize v) := by
  cases v with
  | none => exact ⟨fun _ => rfl, by simp⟩
  | some n =>
    refine ⟨by simp, ?_⟩
    intro m hm
    obtain rfl : n = m := Option.some.inj hm
    constructor
    · intro hneg; simp [sanitize, hneg]
    · intro hpos; simp [sanitize]; omega

/-- C3: whenever ingest returns a pair, every engagement counter of the
stored tweet and of the stored author satisfies the sanitization contract
against its raw counterpart: present-negative becomes absent,
present-non-negative is stored unchanged, absent stays absent. -/
theorem c3_counts_sanitized (cfg : Config) (pdtz : String → Option TimeTup)
    (raw : RawStatus) (save_rts : Bool) (st st' : Store) (t : TweetRec)
    (u : UserRec)
    (h : create_or_update_from_json cfg pdtz raw save_rts st =
      (st', .ok (some (t, u)))) :
    countOk raw.reply_count t.reply_count ∧
    countOk raw.favorite_count t.favorite_count ∧
    countOk raw.retweet_count t.retweet_count ∧
    ∀ ru, raw.user = some ru →
      countOk ru.favourites_count u.favourites_count ∧
      countOk ru.followers_count u.followers_count ∧
      countOk ru.friends_count u.friends_count ∧
      countOk ru.listed_count u.listed_count ∧
      countOk ru.statuses_count u.statuses_count := by
  have hn := create_ok_some h
  obtain ⟨ru', hu', hbt, hbu⟩ := normalizeStatus_ok_some hn
  obtain ⟨-, -, -, -, -, -, hr1, hr2, hr3, -⟩ := buildTweet_ok hbt
  obtain ⟨-, -, -, -, -, -, -, -, -, hf1, hf2, hf3, hf4, hf5, -⟩ :=
    buildUser_ok hbu
  refine ⟨?_, ?_, ?_, ?_⟩
  · rw [hr1]; exact sanitize_countOk _
  · rw [hr2]; exact sanitize_countOk _
  · rw [hr3]; exact sanitize_countOk _
  · intro ru hu
    rw [hu] at hu'
    obtain rfl : ru = ru' := Option.some.inj hu'
    refine ⟨?_, ?_, ?_, ?_, ?_⟩
    · rw [hf4]; exact sanitize_countOk _
    · rw [hf1]; exact sanitize_countOk _
    · rw [hf2]; exact sanitize_countOk _
    · rw [hf3]; exact sanitize_countOk _
    · rw [hf5]; exact sanitize_countOk _

/-- C3 witness: concrete ingest with a present negative tweet counter, a
present non-negative author counter and absent counters. -/
theorem c3_counts_sanitized_witness :
    countOk rawC.reply_count tdC.reply_count ∧
    countOk rawC.favorite_count tdC.favorite_count ∧
    countOk rawC.retweet_count tdC.retweet_count ∧
    ∀ ru, rawC.user = some ru →
      countOk ru.favourites_count udC.favourites_count ∧
      countOk ru.followers_count udC.followers_count ∧
      countOk ru.friends_count udC.friends_count ∧
      countOk ru.listed_count udC.listed_count ∧
      countOk ru.statuses_count udC.statuses_count :=
  c3_counts_sanitized cfgC pdC rawC true store0 st1C tdC udC rfl

/-- C8: whenever ingest returns a pair, the stored `retweeted_status_id`
is the id read from the nested retweeted-status object when that object is
present and null when it is absent, and `is_retweet` holds exactly when
the stored `retweeted_status_id` is non-null. -/
theorem c8_retweet_id_mapping (cfg : Config)
    (pdtz : String → Option TimeTup) (raw : RawStatus) (save_rts : Bool)
    (st st' : Store) (t : TweetRec) (u : UserRec)
    (h : create_or_update_from_json cfg pdtz raw save_rts st =
      (st', .ok (some (t, u)))) :
    (raw.retweeted_status = none → t.retweeted_status_id = none) ∧
    (∀ rs, raw.retweeted_status = some rs →
      rs.id = some t.retweeted_status_id) ∧
    (t.is_retweet = true ↔ t.retweeted_status_id ≠ none) := by
  have hn := create_ok_some h
  obtain ⟨ru', hu', hbt, hbu⟩ := normalizeStatus_ok_some hn
  obtain ⟨-, -, -, -, -, -, -, -, -, -, hrt, -⟩ := buildTweet_ok hbt
  refine ⟨?_, ?_, ?_⟩
  · intro hnone
    rw [hnone] at hrt
    simp only [rtDefault] at hrt
    exact (Option.some.inj hrt).symm
  · intro rs hrs
    rw [hrs] at hrt
    simpa only [rtDefault] using hrt
  · simp [TweetRec.is_retweet, Option.isSome_iff_ne_none]

/-- The tweet row produced by ingesting `rawRt55`. -/
def tdRt55 : TweetRec := { tdC with retweeted_status_id := some 55 }

/-- C8 witness: a concrete retweet stores the nested id `55`; the concrete
original `rawC` would store null. -/
theorem c8_retweet_id_mapping_witness :
    (rawRt55.retweeted_status = none → tdRt55.retweeted_status_id = none) ∧
    (∀ rs, rawRt55.retweeted_status = some rs →
      rs.id = some tdRt55.retweeted_status_id) ∧
    (tdRt55.is_retweet = true ↔ tdRt55.retweeted_status_id ≠ none) :=
  c8_retweet_id_mapping cfgC pdC rawRt55 true store0
    { tweets := [tdRt55], users := [udC] } tdRt55 udC rfl

/-- C10: whenever ingest returns a pair, the stored tweet's `user_id`, the
stored author's `user_id` and the raw nested author id all coincide: the
returned tweet references the returned author. -/
theorem c10_user_ids_agree (cfg : Config) (pdtz : String → Option TimeTup)
    (raw : RawStatus) (save_rts : Bool) (st st' : Store) (t : TweetRec)
    (u : UserRec)
    (h : create_or_update_from_json cfg pdtz raw save_rts st =
      (st', .ok (some (t, u)))) :
    t.user_id = u.user_id ∧
    ∃ ru, raw.user = some ru ∧ ru.id = some t.user_id := by
  have hn := create_ok_some h
  obtain ⟨ru', hu', hbt, hbu⟩ := normalizeStatus_ok_some hn
  obtain ⟨-, -, -, h4, -⟩ := buildTweet_ok hbt
  obtain ⟨g1, -⟩ := buildUser_ok hbu
  have hid : t.user_id = u.user_id := by
    rw [h4] at g1
    exact Option.some.inj g1
  exact ⟨hid, ru', hu', h4⟩

/-- C10 witness: concrete ingest of `rawC` has all three ids equal to 7. -/
theorem c10_user_ids_agree_witness :
    tdC.user_id = udC.user_id ∧
    ∃ ru, rawC.user = some ru ∧ ru.id = some tdC.user_id :=
  c10_user_ids_agree cfgC pdC rawC true store0 st1C tdC udC rfl

/-- C4 (amended): when the retweet-skip short-circuit does not fire — the
author object is absent (so line 151 raises before the skip is reached) or
the skip check itself does not return the skip — a raw input missing any
required key (the nested author object, either external id, `text`,
`truncated`, either `created_at`, `name`, `screen_name`) makes ingest fail
with a KeyError-equivalent that reaches the caller, and the missing key is
never silently defaulted. -/
theorem c4_missing_key_error (cfg : Config)
    (pdtz : String → Option TimeTup) (raw : RawStatus) (save_rts : Bool)
    (st : Store)
    (hnoskip : raw.user = none ∨
      skipCheck save_rts (rtDefault raw.retweeted_status) ≠ .ok true)
    (hmiss : raw.user = none ∨ ∃ ru, raw.user = some ru ∧
      (raw.id = none ∨ raw.text = none ∨ raw.truncated = none ∨
       raw.created_at = none ∨ ru.id = none ∨ ru.name = none ∨
       ru.screen_name = none ∨ ru.created_at = none)) :
    ∃ e, create_or_update_from_json cfg pdtz raw save_rts st =
      (st, .error e) := by
  cases hn : normalizeStatus cfg pdtz raw save_rts with
  | error e => exact ⟨e, by simp [create_or_update_from_json, hn]⟩
  | ok o =>
    cases o with
    | none =>
      obtain ⟨⟨ru0, hru0⟩, hsk⟩ := normalizeStatus_ok_none hn
      rcases hnoskip with hu | hns
      · rw [hu] at hru0
        exact Option.noConfusion hru0
      · exact absurd hsk hns
    | some q =>
      obtain ⟨td, ud⟩ := q
      obtain ⟨ru', hu', hbt, hbu⟩ := normalizeStatus_ok_some hn
      obtain ⟨h1, h2, h3, h4, ⟨s1, h5, -⟩, -⟩ := buildTweet_ok hbt
      obtain ⟨g1, g2, g3, -, -, -, -, -, ⟨s2, g9, -⟩, -⟩ := buildUser_ok hbu
      rcases hmiss with hu | ⟨ru, hu, hdis⟩
      · rw [hu] at hu'
        exact Option.noConfusion hu'
      · rw [hu] at hu'
        obtain rfl : ru = ru' := Option.some.inj hu'
        rcases hdis with hd | hd | hd | hd | hd | hd | hd | hd <;> simp_all

/-- A truthy retweet (nested id `55`) whose author object is absent. -/
def rawRt55NoUser : RawStatus := { rawRt55 with user := none }

/-- C4 witness: first, a present author object but absent `text` raises
when the skip does not fire; second, an absent author object raises even
for a truthy retweet under `save_rts = false`, because line 151 runs
before the skip check. -/
theorem c4_missing_key_error_witness :
    ((rawNoText.user = none ∨
      skipCheck true (rtDefault rawNoText.retweeted_status) ≠ .ok true) ∧
     (rawNoText.user = none ∨ ∃ ru, rawNoText.user = some ru ∧
       (rawNoText.id = none ∨ rawNoText.text = none ∨
        rawNoText.truncated = none ∨ rawNoText.created_at = none ∨
        ru.id = none ∨ ru.name = none ∨ ru.screen_name = none ∨
        ru.created_at = none)) ∧
     ∃ e, create_or_update_from_json cfgC pdC rawNoText true store0 =
       (store0, .error e)) ∧
    (rawRt55NoUser.user = none ∧
     ∃ e, create_or_update_from_json cfgC pdC rawRt55NoUser false store0 =
       (store0, .error e)) := by
  have hns : rawNoText.user = none ∨
      skipCheck true (rtDefault rawNoText.retweeted_status) ≠ .ok true := by
    refine Or.inr ?_
    intro hc
    rw [show skipCheck true (rtDefault rawNoText.retweeted_status) =
      Except.ok false from rfl] at hc
    simp at hc
  have hm : rawNoText.user = none ∨ ∃ ru, rawNoText.user = some ru ∧
      (rawNoText.id = none ∨ rawNoText.text = none ∨
       rawNoText.truncated = none ∨ rawNoText.created_at = none ∨
       ru.id = none ∨ ru.name = none ∨ ru.screen_name = none ∨
       ru.created_at = none) :=
    Or.inr ⟨ruC, rfl, Or.inr (Or.inl rfl)⟩
  refine ⟨⟨hns, hm, c4_missing_key_error cfgC pdC rawNoText true store0
    hns hm⟩, rfl, c4_missing_key_error cfgC pdC rawRt55NoUser false store0
    (Or.inl rfl) (Or.inl rfl)⟩

/-- C4 counterexample: a raw input whose required key `text` is absent but
which is a truthy retweet ingested with `save_rts = false` does NOT fail:
the skip short-circuit returns the nothing-result before the key is ever
read, refuting the claim that every missing required key raises. -/
theorem c4_counterexample :
    rawRt55NoText.text = none ∧
    create_or_update_from_json cfgC pdC rawRt55NoText false store0 =
      (store0, .ok none) := ⟨rfl, rfl⟩

/-- C5 (amended): `get_created_in_range(start, end)` returns exactly the
stored tweets whose creation timestamp lies in the half-open interval
`[start, end)`; a stored tweet with `created_at == end` is never returned,
and a stored tweet with `created_at == start` is returned provided
`start < end`. -/
theorem c5_range_query (st : Store) (start end_ : PyDateTime)
    (t : TweetRec) (ht : t ∈ st.tweets) :
    (t ∈ get_created_in_range st start end_ ↔
      (dtLeb start t.created_at = true ∧ dtLtb t.created_at end_ = true)) ∧
    (t.created_at = end_ → t ∉ get_created_in_range st start end_) ∧
    (dtLtb start end_ = true → t.created_at = start →
      t ∈ get_created_in_range st start end_) := by
  have hmem : t ∈ get_created_in_range st start end_ ↔
      (dtLeb start t.created_at = true ∧ dtLtb t.created_at end_ = true) := by
    simp [get_created_in_range, List.mem_filter, ht]
  refine ⟨hmem, ?_, ?_⟩
  · intro heq hin
    obtain ⟨-, hlt⟩ := hmem.mp hin
    rw [heq, dtLtb_irrefl] at hlt
    exact Bool.noConfusion hlt
  · intro hse heq
    exact hmem.mpr ⟨by rw [heq]; exact dtLeb_refl _, by rw [heq]; exact hse⟩

/-- A datetime one second after `dtC`. -/
def dtE : PyDateTime := { dtC with second := 25 }

/-- C5 witness: concrete store, window `[dtC, dtE)` with `dtC < dtE`. -/
theorem c5_range_query_witness :
    tdC ∈ st1C.tweets ∧
    ((tdC ∈ get_created_in_range st1C dtC dtE ↔
      (dtLeb dtC tdC.created_at = true ∧ dtLtb tdC.created_at dtE = true)) ∧
    (tdC.created_at = dtE → tdC ∉ get_created_in_range st1C dtC dtE) ∧
    (dtLtb dtC dtE = true → tdC.created_at = dtC →
      tdC ∈ get_created_in_range st1C dtC dtE)) :=
  ⟨by simp [st1C], c5_range_query st1C dtC dtE tdC (by simp [st1C])⟩

/-- C5 counterexample: with `start = end` the interval is empty, so the
stored tweet whose `created_at` equals `start` is NOT returned, refuting
the unconditional "always returns one with created_at == start". -/
theorem c5_counterexample :
    tdC ∈ st1C.tweets ∧ tdC.created_at = dtC ∧
    tdC ∉ get_created_in_range st1C dtC dtC := by
  refine ⟨by simp [st1C], rfl, ?_⟩
  intro hc
  rw [show get_created_in_range st1C dtC dtC = [] from rfl] at hc
  exact List.not_mem_nil _ hc

/-- C6: the earliest/latest aggregates return no value exactly on an empty
store, and otherwise a single timestamp value that is attained by some
stored tweet and bounds every stored tweet's creation timestamp from
below/above (the true minimum and maximum). -/
theorem c6_min_max_aggregates (st : Store) :
    (st.tweets = [] → get_earliest_created_at st = none ∧
      get_latest_created_at st = none) ∧
    (st.tweets ≠ [] → ∃ m M, get_earliest_created_at st = some m ∧
      get_latest_created_at st = some M) ∧
    (∀ m, get_earliest_created_at st = some m →
      (∃ t ∈ st.tweets, t.created_at = m) ∧
      ∀ t ∈ st.tweets, dtLeb m t.created_at = true) ∧
    (∀ M, get_latest_created_at st = some M →
      (∃ t ∈ st.tweets, t.created_at = M) ∧
      ∀ t ∈ st.tweets, dtLeb t.created_at M = true) := by
  refine ⟨?_, ?_, ?_, ?_⟩
  · intro h
    simp [get_earliest_created_at, get_latest_created_at, h, aggMin, aggMax]
  · intro h
    cases hm : aggMin (st.tweets.map fun t => t.created_at) with
    | none =>
      exfalso
      have h2 := aggMin_eq_none.mp hm
      have h3 : st.tweets = [] := by simpa using h2
      exact h h3
    | some m =>
      cases hM : aggMax (st.tweets.map fun t => t.created_at) with
      | none =>
        exfalso
        have h2 := aggMax_eq_none.mp hM
        have h3 : st.tweets = [] := by simpa using h2
        exact h h3
      | some M =>
        exact ⟨m, M, by simp [get_earliest_created_at, hm],
          by simp [get_latest_created_at, hM]⟩
  · intro m hm
    obtain ⟨hmem, hbnd⟩ :=
      aggMin_spec (by simpa [get_earliest_created_at] using hm)
    refine ⟨?_, ?_⟩
    · obtain ⟨t, ht, hteq⟩ := List.mem_map.mp hmem
      exact ⟨t, ht, hteq⟩
    · intro t ht
      exact hbnd _ (List.mem_map_of_mem _ ht)
  · intro M hM
    obtain ⟨hmem, hbnd⟩ :=
      aggMax_spec (by simpa [get_latest_created_at] using hM)
    refine ⟨?_, ?_⟩
    · obtain ⟨t, ht, hteq⟩ := List.mem_map.mp hmem
      exact ⟨t, ht, hteq⟩
    · intro t ht
      exact hbnd _ (List.mem_map_of_mem _ ht)

/-- A second stored tweet, one second later. -/
def tdE : TweetRec := { tdC with tweet_id := 101, created_at := dtE }

/-- A concrete store holding two tweets with distinct timestamps. -/
def stC6 : Store := { tweets := [tdC, tdE], users := [] }

/-- C6 witness: on a concrete two-tweet store, both aggregates return a
value, and the minimum `dtC` is attained and bounds all stored tweets. -/
theorem c6_min_max_aggregates_witness :
    stC6.tweets ≠ [] ∧
    (∃ m M, get_earliest_created_at stC6 = some m ∧
      get_latest_created_at stC6 = some M) ∧
    ((∃ t ∈ stC6.tweets, t.created_at = dtC) ∧
      ∀ t ∈ stC6.tweets, dtLeb dtC t.created_at = true) :=
  ⟨by simp [stC6],
   (c6_min_max_aggregates stC6).2.1 (by simp [stC6]),
   (c6_min_max_aggregates stC6).2.2.1 dtC rfl⟩
